import Mathlib

/-
  Shallow embedding of src/DummyBackend.py, a mock user-management backend.
  The mutable global USERS_DB is modelled by explicit state passing: each
  endpoint takes the current record list and, when it mutates, returns the
  new one.  Python exceptions (AttributeError from calling .get on a list,
  IndexError from USERS_DB[0] on an empty list) are modelled with Except.
-/

namespace DummyBackend

structure UserRecord where
  id : Nat
  email : String
  username : String
  role : String
  enabled : Bool
  password : String
deriving DecidableEq, Repr

/-- The seeded mocked database of users (DummyBackend.py lines 9-12). -/
def USERS_DB : List UserRecord :=
  [ { id := 1, email := "admin@example.com", username := "admin", role := "ADMIN",
      enabled := true, password := "adminpass" },
    { id := 2, email := "1@1.1", username := "user1", role := "STUDENT",
      enabled := true, password := "pass" } ]

/-- Python runtime errors that the embedded code can raise. -/
inductive PyError where
  | attributeError : String → PyError
  | indexError : PyError
deriving DecidableEq, Repr

/-- The session dictionaries built by login and refresh: keys token,
refreshToken, expirationTime, and (login only) role. -/
structure SessionData where
  token : String
  refreshToken : String
  expirationTime : String
  role : Option String
deriving DecidableEq, Repr

/-- The Python values passed as the data argument of create_response:
a single user dict, a list of user dicts, or a session dict. -/
inductive RespData where
  | user : UserRecord → RespData
  | userList : List UserRecord → RespData
  | session : SessionData → RespData
deriving DecidableEq, Repr

/-- Python truthiness of a data value: dicts here are non-empty hence truthy,
a list is truthy iff non-empty. -/
def RespData.truthy : RespData → Bool
  | .user _ => true
  | .userList l => !l.isEmpty
  | .session _ => true

def dataTruthy : Option RespData → Bool
  | none => false
  | some d => d.truthy

/-- The .get method of the data value: user dicts have none of the token keys,
session dicts have them, and calling .get on a list raises AttributeError. -/
def RespData.get : RespData → String → Except PyError (Option String)
  | .user _, _ => .ok none
  | .session s, k =>
      .ok (if k = "token" then some s.token
           else if k = "refreshToken" then some s.refreshToken
           else if k = "expirationTime" then some s.expirationTime
           else none)
  | .userList _, _ => .error (.attributeError "get")

/-- Models the Python expression `data.get(key) if data else None`. -/
def dataGet (data : Option RespData) (key : String) : Except PyError (Option String) :=
  match data with
  | none => .ok none
  | some d => if d.truthy then d.get key else .ok none

/-- The uniform response envelope dict built by create_response. -/
structure Response where
  statusCode : Nat
  message : String
  user : Option RespData
  userList : Option (List UserRecord)
  token : Option String
  refreshToken : Option String
  expirationTime : Option String
  error : Option String
deriving DecidableEq, Repr

/-- create_response (DummyBackend.py lines 15-25).  The token, refreshToken and
expirationTime fields evaluate `data.get(...) if data else None`, which raises
AttributeError when data is a non-empty list. -/
def create_response (statusCode : Nat) (message : String)
    (data : Option RespData) (error : Option String) : Except PyError Response := do
  let token ← dataGet data "token"
  let refreshToken ← dataGet data "refreshToken"
  let expirationTime ← dataGet data "expirationTime"
  return { statusCode := statusCode, message := message,
           user := if dataTruthy data then data else none,
           userList := match data with
                       | some (.userList l) => some l
                       | _ => none,
           token := token, refreshToken := refreshToken,
           expirationTime := expirationTime, error := error }

structure RegisterRequest where
  email : String
  username : String
  role : String
  password : String
deriving DecidableEq, Repr

/-- register (DummyBackend.py lines 32-49): fails when some record already has
the requested email, else appends a record with id = len(USERS_DB) + 1.
The second component is the database after the call. -/
def register (db : List UserRecord) (req : RegisterRequest) :
    Except PyError Response × List UserRecord :=
  match db.find? (fun u => u.email == req.email) with
  | some _ => (create_response 400 "Email already exists" none none, db)
  | none =>
      let new_user : UserRecord :=
        { id := db.length + 1, email := req.email, username := req.username,
          role := req.role, enabled := true, password := req.password }
      (create_response 200 "User registered successfully" (some (.user new_user)) none,
       db ++ [new_user])

structure LoginRequest where
  email : String
  password : String
deriving DecidableEq, Repr

/-- login (DummyBackend.py lines 52-67). -/
def login (db : List UserRecord) (req : LoginRequest) : Except PyError Response :=
  match db.find? (fun u => u.email == req.email) with
  | none => create_response 400 "Invalid credentials" none none
  | some user =>
      if user.password ≠ req.password then
        create_response 400 "Invalid credentials" none none
      else
        create_response 200 "Login successful"
          (some (.session { token := "mocked_jwt_token",
                            refreshToken := "mocked_refresh_token",
                            expirationTime := "24Hrs", role := some user.role })) none

/-- refresh (DummyBackend.py lines 70-80): req_data.get('token') is falsy when
the token field is absent or the empty string. -/
def refresh (tok : Option String) : Except PyError Response :=
  match tok with
  | none => create_response 400 "No token provided" none none
  | some t =>
      if t = "" then create_response 400 "No token provided" none none
      else
        create_response 200 "Successfully refreshed token"
          (some (.session { token := "new_mocked_jwt_token", refreshToken := t,
                            expirationTime := "24Hrs", role := none })) none

/-- get_all_users (DummyBackend.py lines 83-85): passes the whole record list
as the data of create_response. -/
def get_all_users (db : List UserRecord) : Except PyError Response :=
  create_response 200 "Successful" (some (.userList db)) none

/-- get_user_by_id (DummyBackend.py lines 88-93). -/
def get_user_by_id (db : List UserRecord) (userId : Nat) : Except PyError Response :=
  match db.find? (fun u => u.id == userId) with
  | some u =>
      create_response 200 ("User with ID " ++ toString userId ++ " found")
        (some (.user u)) none
  | none =>
      create_response 404 ("User with ID " ++ toString userId ++ " not found") none none

/-- get_users_by_role (DummyBackend.py lines 96-101). -/
def get_users_by_role (db : List UserRecord) (role : String) : Except PyError Response :=
  let users := db.filter (fun u => u.role == role)
  if users.isEmpty then
    create_response 404 ("No users found with role " ++ role) none none
  else
    create_response 200 ("Users with role " ++ role ++ " found")
      (some (.userList users)) none

/-- Flips the enabled flag of the first record with the given id, as the
in-place mutation `user['enabled'] = not user['enabled']` does on the first
match found by next(...). -/
def toggleFirst : List UserRecord → Nat → List UserRecord
  | [], _ => []
  | u :: rest, userId =>
      if u.id == userId then { u with enabled := !u.enabled } :: rest
      else u :: toggleFirst rest userId

/-- enable_disable_user (DummyBackend.py lines 104-110): flips the enabled flag
of the found record in place and returns the updated record. -/
def enable_disable_user (db : List UserRecord) (userId : Nat) :
    Except PyError Response × List UserRecord :=
  match db.find? (fun u => u.id == userId) with
  | some u =>
      (create_response 200 ("User with ID " ++ toString userId ++ " status changed")
         (some (.user { u with enabled := !u.enabled })) none,
       toggleFirst db userId)
  | none =>
      (create_response 404 ("User with ID " ++ toString userId ++ " not found") none none,
       db)

/-- get_profile (DummyBackend.py lines 113-117): always reads USERS_DB[0],
which raises IndexError on an empty list. -/
def get_profile (db : List UserRecord) : Except PyError Response :=
  match db with
  | [] => .error .indexError
  | u :: _ => create_response 200 "Successful" (some (.user u)) none

/-- change_password (DummyBackend.py lines 120-126): overwrites the password of
USERS_DB[0] in place. -/
def change_password (db : List UserRecord) (newPassword : String) :
    Except PyError Response × List UserRecord :=
  match db with
  | [] => (.error .indexError, db)
  | u :: rest =>
      (create_response 200 "Password changed successfully" none none,
       { u with password := newPassword } :: rest)

/-- One request to any of the exposed endpoints. -/
inductive Op where
  | register (req : RegisterRequest)
  | login (req : LoginRequest)
  | refresh (tok : Option String)
  | get_all_users
  | get_user_by_id (userId : Nat)
  | get_users_by_role (role : String)
  | enable_disable_user (userId : Nat)
  | get_profile
  | change_password (newPassword : String)
deriving DecidableEq, Repr

/-- The database state after serving one request.  Mutations happen before the
response envelope is built, so they persist even when the envelope raises. -/
def Op.apply (op : Op) (db : List UserRecord) : List UserRecord :=
  match op with
  | .register req => (DummyBackend.register db req).2
  | .enable_disable_user userId => (DummyBackend.enable_disable_user db userId).2
  | .change_password p => (DummyBackend.change_password db p).2
  | _ => db

/-- Directory states reachable from the seeded database by serving requests. -/
inductive Reachable : List UserRecord → Prop where
  | seed : Reachable USERS_DB
  | step {db : List UserRecord} (h : Reachable db) (op : Op) : Reachable (op.apply db)

/-
  Computation lemmas for create_response, one per shape of the data argument.
-/

lemma create_response_none (s : Nat) (m : String) (e : Option String) :
    create_response s m none e =
      Except.ok { statusCode := s, message := m, user := none, userList := none,
                  token := none, refreshToken := none, expirationTime := none,
                  error := e } := rfl

lemma create_response_user (s : Nat) (m : String) (u : UserRecord) (e : Option String) :
    create_response s m (some (.user u)) e =
      Except.ok { statusCode := s, message := m, user := some (.user u), userList := none,
                  token := none, refreshToken := none, expirationTime := none,
                  error := e } := rfl

lemma create_response_session (s : Nat) (m : String) (sess : SessionData) (e : Option String) :
    create_response s m (some (.session sess)) e =
      Except.ok { statusCode := s, message := m, user := some (.session sess),
                  userList := none, token := some sess.token,
                  refreshToken := some sess.refreshToken,
                  expirationTime := some sess.expirationTime, error := e } := rfl

lemma create_response_list_cons (s : Nat) (m : String) (u : UserRecord)
    (l : List UserRecord) (e : Option String) :
    create_response s m (some (.userList (u :: l))) e =
      Except.error (PyError.attributeError "get") := rfl

/-
  Structural lemmas about toggleFirst.
-/

lemma toggleFirst_map_id (db : List UserRecord) (userId : Nat) :
    (toggleFirst db userId).map (fun u => u.id) = db.map (fun u => u.id) := by
  induction db with
  | nil => rfl
  | cons u rest ih =>
    by_cases h : u.id == userId
    · simp [toggleFirst, h]
    · simp [toggleFirst, h, ih]

lemma toggleFirst_map_email (db : List UserRecord) (userId : Nat) :
    (toggleFirst db userId).map (fun u => u.email) = db.map (fun u => u.email) := by
  induction db with
  | nil => rfl
  | cons u rest ih =>
    by_cases h : u.id == userId
    · simp [toggleFirst, h]
    · simp [toggleFirst, h, ih]

lemma toggleFirst_length (db : List UserRecord) (userId : Nat) :
    (toggleFirst db userId).length = db.length := by
  have h := congrArg List.length (toggleFirst_map_id db userId)
  simpa using h

lemma toggleFirst_toggleFirst (db : List UserRecord) (userId : Nat) :
    toggleFirst (toggleFirst db userId) userId = db := by
  induction db with
  | nil => rfl
  | cons u rest ih =>
    by_cases h : u.id == userId
    · simp [toggleFirst, h, Bool.not_not]
    · simp [toggleFirst, h, ih]

lemma find?_toggleFirst (db : List UserRecord) (userId : Nat) :
    ∀ u, db.find? (fun v => v.id == userId) = some u →
      (toggleFirst db userId).find? (fun v => v.id == userId) =
        some { u with enabled := !u.enabled } := by
  induction db with
  | nil => intro u h; simp at h
  | cons v rest ih =>
    intro u h
    by_cases hv : v.id == userId
    · rw [List.find?_cons_of_pos (p := fun (w : UserRecord) => w.id == userId) _ hv] at h
      injection h with h
      subst h
      have ht : toggleFirst (v :: rest) userId = { v with enabled := !v.enabled } :: rest := by
        simp [toggleFirst, hv]
      rw [ht]
      exact List.find?_cons_of_pos (p := fun (w : UserRecord) => w.id == userId) rest hv
    · rw [List.find?_cons_of_neg (p := fun (w : UserRecord) => w.id == userId) _ hv] at h
      have ht : toggleFirst (v :: rest) userId = v :: toggleFirst rest userId := by
        simp [toggleFirst, hv]
      rw [ht, List.find?_cons_of_neg (p := fun (w : UserRecord) => w.id == userId) _ hv]
      exact ih u h

/-
  On states with pairwise distinct emails, find? by the email of a member
  returns exactly that member.
-/

lemma find?_email_of_mem (db : List UserRecord) :
    ∀ u, (db.map (fun v => v.email)).Nodup → u ∈ db →
      db.find? (fun v => v.email == u.email) = some u := by
  induction db with
  | nil => intro u _ h; simp at h
  | cons v rest ih =>
    intro u hnd hu
    rw [List.map_cons, List.nodup_cons] at hnd
    rcases List.mem_cons.mp hu with rfl | hmem
    · exact List.find?_cons_of_pos (p := fun (w : UserRecord) => w.email == u.email) _ (by simp)
    · have hne : ¬(v.email == u.email) = true := by
        intro hb
        exact hnd.1 (List.mem_map.mpr ⟨u, hmem, (beq_iff_eq.mp hb).symm⟩)
      rw [List.find?_cons_of_neg (p := fun (w : UserRecord) => w.email == u.email) _ hne]
      exact ih u hnd.2 hmem

/-
  Invariant of reachable directory states: the ids are exactly 1..length in
  order, the directory never shrinks below the two seeded records, and the
  emails are pairwise distinct.
-/

def Inv (db : List UserRecord) : Prop :=
  db.map (fun u => u.id) = List.range' 1 db.length ∧
  2 ≤ db.length ∧
  (db.map (fun u => u.email)).Nodup

lemma inv_seed : Inv USERS_DB := by
  refine ⟨rfl, by decide, by decide⟩

lemma inv_apply (op : Op) (db : List UserRecord) (h : Inv db) : Inv (op.apply db) := by
  obtain ⟨hid, hlen, hem⟩ := h
  cases op with
  | register req =>
    show Inv (DummyBackend.register db req).2
    cases hfind : db.find? (fun u => u.email == req.email) with
    | some v =>
      simp only [DummyBackend.register, hfind]
      exact ⟨hid, hlen, hem⟩
    | none =>
      simp only [DummyBackend.register, hfind]
      have hnotin : req.email ∉ db.map (fun u => u.email) := by
        intro hmem
        obtain ⟨u, hu, hequ⟩ := List.mem_map.mp hmem
        exact (List.find?_eq_none.mp hfind u hu) (by simp [hequ])
      refine ⟨?_, ?_, ?_⟩
      · rw [List.map_append, List.length_append, hid]
        simp [List.range'_concat, Nat.add_comm]
      · simp only [List.length_append, List.length_cons, List.length_nil]
        omega
      · rw [List.map_append, List.nodup_append]
        refine ⟨hem, by simp, ?_⟩
        intro x hx hx1
        simp only [List.map_cons, List.map_nil, List.mem_singleton] at hx1
        subst hx1
        exact hnotin hx
  | enable_disable_user userId =>
    show Inv (DummyBackend.enable_disable_user db userId).2
    cases hfind : db.find? (fun u => u.id == userId) with
    | some v =>
      simp only [DummyBackend.enable_disable_user, hfind]
      exact ⟨by rw [toggleFirst_map_id, toggleFirst_length]; exact hid,
             by rw [toggleFirst_length]; exact hlen,
             by rw [toggleFirst_map_email]; exact hem⟩
    | none =>
      simp only [DummyBackend.enable_disable_user, hfind]
      exact ⟨hid, hlen, hem⟩
  | change_password p =>
    show Inv (DummyBackend.change_password db p).2
    cases db with
    | nil => exact ⟨hid, hlen, hem⟩
    | cons u rest =>
      simp only [DummyBackend.change_password]
      simp only [List.map_cons, List.length_cons] at hid hem ⊢
      exact ⟨hid, by simpa using hlen, hem⟩
  | login req => exact ⟨hid, hlen, hem⟩
  | refresh tok => exact ⟨hid, hlen, hem⟩
  | get_all_users => exact ⟨hid, hlen, hem⟩
  | get_user_by_id userId => exact ⟨hid, hlen, hem⟩
  | get_users_by_role role => exact ⟨hid, hlen, hem⟩
  | get_profile => exact ⟨hid, hlen, hem⟩

lemma reachable_inv {db : List UserRecord} (h : Reachable db) : Inv db := by
  induction h with
  | seed => exact inv_seed
  | step h op ih => exact inv_apply op _ ih

lemma reachable_id_lt {db : List UserRecord} {u : UserRecord}
    (hr : Reachable db) (hu : u ∈ db) : u.id < db.length + 1 := by
  have hid := (reachable_inv hr).1
  have hmem : u.id ∈ db.map (fun v => v.id) := List.mem_map_of_mem _ hu
  rw [hid] at hmem
  have := List.mem_range'_1.mp hmem
  omega

lemma reachable_ne_nil {db : List UserRecord} (hr : Reachable db) : db ≠ [] := by
  intro h
  have hlen := (reachable_inv hr).2.1
  rw [h] at hlen
  simp at hlen

lemma reachable_head_id {db : List UserRecord} (hr : Reachable db) :
    ∀ u rest, db = u :: rest → u.id = 1 := by
  intro u rest h
  have hid := (reachable_inv hr).1
  subst h
  rw [List.map_cons, List.length_cons, List.range'_succ] at hid
  injection hid with h1 _

/-- C1: for every directory state and every registration request whose email
equals the email of some existing record, register returns status 400 with
message "Email already exists" and the directory is exactly unchanged. -/
theorem register_email_exists_unchanged
    (db : List UserRecord) (req : RegisterRequest) (u : UserRecord)
    (hu : u ∈ db) (he : u.email = req.email) :
    register db req =
      (Except.ok { statusCode := 400, message := "Email already exists",
                   user := none, userList := none, token := none,
                   refreshToken := none, expirationTime := none, error := none }, db) := by
  cases hfind : db.find? (fun v => v.email == req.email) with
  | none =>
    exact absurd (by simp [he]) (List.find?_eq_none.mp hfind u hu)
  | some v =>
    simp [register, hfind, create_response_none]

theorem register_email_exists_unchanged_witness :
    ({ id := 2, email := "1@1.1", username := "user1", role := "STUDENT",
       enabled := true, password := "pass" } : UserRecord) ∈ USERS_DB ∧
    register USERS_DB { email := "1@1.1", username := "x", role := "STUDENT",
                        password := "p" } =
      (Except.ok { statusCode := 400, message := "Email already exists",
                   user := none, userList := none, token := none,
                   refreshToken := none, expirationTime := none, error := none },
       USERS_DB) :=
  ⟨by decide,
   register_email_exists_unchanged USERS_DB
     { email := "1@1.1", username := "x", role := "STUDENT", password := "p" }
     { id := 2, email := "1@1.1", username := "user1", role := "STUDENT",
       enabled := true, password := "pass" }
     (by decide) rfl⟩

/-- C2: on every reachable directory state, a successful registration appends a
record whose id is db.length + 1, strictly greater than the id of every record
already in the directory. -/
theorem register_id_monotonic
    (db : List UserRecord) (req : RegisterRequest)
    (hr : Reachable db)
    (hfresh : db.find? (fun u => u.email == req.email) = none) :
    (register db req).2 =
      db ++ [{ id := db.length + 1, email := req.email, username := req.username,
               role := req.role, enabled := true, password := req.password }] ∧
    ∀ u ∈ db, u.id < db.length + 1 := by
  constructor
  · simp [register, hfresh]
  · intro u hu
    exact reachable_id_lt hr hu

theorem register_id_monotonic_witness :
    USERS_DB.find? (fun u => u.email == "new@example.com") = none ∧
    (register USERS_DB { email := "new@example.com", username := "n",
                         role := "STUDENT", password := "p" }).2 =
      USERS_DB ++ [{ id := 3, email := "new@example.com", username := "n",
                     role := "STUDENT", enabled := true, password := "p" }] ∧
    ∀ u ∈ USERS_DB, u.id < 3 :=
  ⟨by decide,
   (register_id_monotonic USERS_DB
     { email := "new@example.com", username := "n", role := "STUDENT", password := "p" }
     Reachable.seed (by decide)).1,
   (register_id_monotonic USERS_DB
     { email := "new@example.com", username := "n", role := "STUDENT", password := "p" }
     Reachable.seed (by decide)).2⟩

/-- C3: a login with an email matching no record and a login with a matching
email but a wrong password return exactly the same response, with the same
status code 400 and the same message "Invalid credentials". -/
theorem login_invalid_credentials_indistinguishable
    (db : List UserRecord) (e1 p1 e2 p2 : String) (u : UserRecord)
    (h1 : db.find? (fun v => v.email == e1) = none)
    (h2 : db.find? (fun v => v.email == e2) = some u)
    (hp : u.password ≠ p2) :
    login db { email := e1, password := p1 } = login db { email := e2, password := p2 } ∧
    login db { email := e1, password := p1 } =
      Except.ok { statusCode := 400, message := "Invalid credentials", user := none,
                  userList := none, token := none, refreshToken := none,
                  expirationTime := none, error := none } := by
  have ha : login db { email := e1, password := p1 } =
      Except.ok { statusCode := 400, message := "Invalid credentials", user := none,
                  userList := none, token := none, refreshToken := none,
                  expirationTime := none, error := none } := by
    simp [login, h1, create_response_none]
  have hb : login db { email := e2, password := p2 } =
      Except.ok { statusCode := 400, message := "Invalid credentials", user := none,
                  userList := none, token := none, refreshToken := none,
                  expirationTime := none, error := none } := by
    simp [login, h2, hp, create_response_none]
  exact ⟨ha.trans hb.symm, ha⟩

theorem login_invalid_credentials_indistinguishable_witness :
    login USERS_DB { email := "nobody@example.com", password := "x" } =
      login USERS_DB { email := "1@1.1", password := "wrong" } ∧
    login USERS_DB { email := "nobody@example.com", password := "x" } =
      Except.ok { statusCode := 400, message := "Invalid credentials", user := none,
                  userList := none, token := none, refreshToken := none,
                  expirationTime := none, error := none } :=
  login_invalid_credentials_indistinguishable USERS_DB "nobody@example.com" "x"
    "1@1.1" "wrong"
    { id := 2, email := "1@1.1", username := "user1", role := "STUDENT",
      enabled := true, password := "pass" }
    (by decide) (by decide) (by decide)

/-- C4: on every reachable directory state, logging in with the email and
stored password of any record succeeds with status 200, and the role carried
in the returned session data is the role stored in that record. -/
theorem login_success_role
    (db : List UserRecord) (u : UserRecord)
    (hr : Reachable db) (hu : u ∈ db) :
    login db { email := u.email, password := u.password } =
      Except.ok { statusCode := 200, message := "Login successful",
                  user := some (.session { token := "mocked_jwt_token",
                                           refreshToken := "mocked_refresh_token",
                                           expirationTime := "24Hrs",
                                           role := some u.role }),
                  userList := none, token := some "mocked_jwt_token",
                  refreshToken := some "mocked_refresh_token",
                  expirationTime := some "24Hrs", error := none } := by
  have hnd := (reachable_inv hr).2.2
  have hfind := find?_email_of_mem db u hnd hu
  simp [login, hfind, create_response_session]

theorem login_success_role_witness :
    ({ id := 2, email := "1@1.1", username := "user1", role := "STUDENT",
       enabled := true, password := "pass" } : UserRecord) ∈ USERS_DB ∧
    login USERS_DB { email := "1@1.1", password := "pass" } =
      Except.ok { statusCode := 200, message := "Login successful",
                  user := some (.session { token := "mocked_jwt_token",
                                           refreshToken := "mocked_refresh_token",
                                           expirationTime := "24Hrs",
                                           role := some "STUDENT" }),
                  userList := none, token := some "mocked_jwt_token",
                  refreshToken := some "mocked_refresh_token",
                  expirationTime := some "24Hrs", error := none } :=
  ⟨by decide,
   login_success_role USERS_DB
     { id := 2, email := "1@1.1", username := "user1", role := "STUDENT",
       enabled := true, password := "pass" }
     Reachable.seed (by decide)⟩

/-- C5: refresh returns the 400 "No token provided" failure exactly when the
presented token is missing or empty, and for every non-empty token it succeeds
with status 200, mints the new access token "new_mocked_jwt_token", and echoes
the presented token back unchanged as the refreshToken. -/
theorem refresh_token_spec (tok : Option String) :
    ((tok = none ∨ tok = some "") →
      refresh tok =
        Except.ok { statusCode := 400, message := "No token provided", user := none,
                    userList := none, token := none, refreshToken := none,
                    expirationTime := none, error := none }) ∧
    (∀ t, tok = some t → t ≠ "" →
      refresh tok =
        Except.ok { statusCode := 200, message := "Successfully refreshed token",
                    user := some (.session { token := "new_mocked_jwt_token",
                                             refreshToken := t,
                                             expirationTime := "24Hrs", role := none }),
                    userList := none, token := some "new_mocked_jwt_token",
                    refreshToken := some t, expirationTime := some "24Hrs",
                    error := none }) := by
  constructor
  · rintro (rfl | rfl) <;> simp [refresh, create_response_none]
  · rintro t rfl ht
    simp [refresh, ht, create_response_session]

theorem refresh_token_spec_witness :
    refresh none =
      Except.ok { statusCode := 400, message := "No token provided", user := none,
                  userList := none, token := none, refreshToken := none,
                  expirationTime := none, error := none } ∧
    refresh (some "abc") =
      Except.ok { statusCode := 200, message := "Successfully refreshed token",
                  user := some (.session { token := "new_mocked_jwt_token",
                                           refreshToken := "abc",
                                           expirationTime := "24Hrs", role := none }),
                  userList := none, token := some "new_mocked_jwt_token",
                  refreshToken := some "abc", expirationTime := some "24Hrs",
                  error := none } :=
  ⟨(refresh_token_spec none).1 (Or.inl rfl),
   (refresh_token_spec (some "abc")).2 "abc" rfl (by decide)⟩

/-- C6: enable_disable_user is an involution on the directory: applying it
twice with the same id restores the directory exactly, and a single
application on an existing record returns that record with its enabled flag
flipped. -/
theorem toggle_enabled_involution (db : List UserRecord) (userId : Nat) :
    (enable_disable_user (enable_disable_user db userId).2 userId).2 = db ∧
    ∀ u, db.find? (fun v => v.id == userId) = some u →
      (enable_disable_user db userId).1 =
        Except.ok { statusCode := 200,
                    message := "User with ID " ++ toString userId ++ " status changed",
                    user := some (.user { u with enabled := !u.enabled }),
                    userList := none, token := none, refreshToken := none,
                    expirationTime := none, error := none } := by
  constructor
  · cases hfind : db.find? (fun v => v.id == userId) with
    | none => simp [enable_disable_user, hfind]
    | some u =>
      have h2 := find?_toggleFirst db userId u hfind
      simp [enable_disable_user, hfind, h2, toggleFirst_toggleFirst]
  · intro u h
    simp [enable_disable_user, h, create_response_user]

theorem toggle_enabled_involution_witness :
    (enable_disable_user (enable_disable_user USERS_DB 2).2 2).2 = USERS_DB ∧
    (enable_disable_user USERS_DB 2).1 =
      Except.ok { statusCode := 200, message := "User with ID 2 status changed",
                  user := some (.user { id := 2, email := "1@1.1", username := "user1",
                                        role := "STUDENT", enabled := false,
                                        password := "pass" }),
                  userList := none, token := none, refreshToken := none,
                  expirationTime := none, error := none } :=
  ⟨(toggle_enabled_involution USERS_DB 2).1,
   (toggle_enabled_involution USERS_DB 2).2
     { id := 2, email := "1@1.1", username := "user1", role := "STUDENT",
       enabled := true, password := "pass" }
     (by decide)⟩

/-- C7: on the seeded directory, get_users_by_role with zero matches does
return the 404 envelope, but with at least one match (role "ADMIN") the
success branch raises AttributeError inside create_response instead of
returning the matching records, so the claimed success response is never
produced. -/
theorem get_users_by_role_match_raises :
    get_users_by_role USERS_DB "ADMIN" =
      Except.error (PyError.attributeError "get") ∧
    get_users_by_role USERS_DB "TEACHER" =
      Except.ok { statusCode := 404, message := "No users found with role TEACHER",
                  user := none, userList := none, token := none, refreshToken := none,
                  expirationTime := none, error := none } :=
  ⟨rfl, rfl⟩

/-- C8 counterexample: enable_disable_user accepts no session or token at all,
and on the seeded directory it succeeds with status 200 for id 2 instead of
failing with Forbidden or Unauthenticated. -/
theorem admin_toggle_unguarded_counterexample :
    (enable_disable_user USERS_DB 2).1 =
      Except.ok { statusCode := 200, message := "User with ID 2 status changed",
                  user := some (.user { id := 2, email := "1@1.1", username := "user1",
                                        role := "STUDENT", enabled := false,
                                        password := "pass" }),
                  userList := none, token := none, refreshToken := none,
                  expirationTime := none, error := none } := rfl

/-- C8 amended: the admin operations perform no authentication or authorization
check: enable_disable_user succeeds with status 200 and no error for any
existing id although no credential is presented, and get_all_users never
returns the record list only because its envelope builder raises on the
non-empty list, not because of any role check. -/
theorem admin_ops_no_authz :
    (∀ (db : List UserRecord) (userId : Nat) (u : UserRecord),
        db.find? (fun v => v.id == userId) = some u →
        ∃ r, (enable_disable_user db userId).1 = Except.ok r ∧
             r.statusCode = 200 ∧ r.error = none) ∧
    (∀ db : List UserRecord, Reachable db →
        get_all_users db = Except.error (PyError.attributeError "get")) := by
  constructor
  · intro db userId u h
    refine ⟨{ statusCode := 200,
              message := "User with ID " ++ toString userId ++ " status changed",
              user := some (.user { u with enabled := !u.enabled }),
              userList := none, token := none, refreshToken := none,
              expirationTime := none, error := none }, ?_, rfl, rfl⟩
    simp [enable_disable_user, h, create_response_user]
  · intro db hr
    cases hdb : db with
    | nil => exact absurd hdb (reachable_ne_nil hr)
    | cons u rest => simp [get_all_users, create_response_list_cons]

theorem admin_ops_no_authz_witness :
    (∃ r, (enable_disable_user USERS_DB 2).1 = Except.ok r ∧
          r.statusCode = 200 ∧ r.error = none) ∧
    get_all_users USERS_DB = Except.error (PyError.attributeError "get") :=
  ⟨admin_ops_no_authz.1 USERS_DB 2
     { id := 2, email := "1@1.1", username := "user1", role := "STUDENT",
       enabled := true, password := "pass" }
     (by decide),
   admin_ops_no_authz.2 USERS_DB Reachable.seed⟩

/-- C9 counterexample: get_profile accepts no access token, yet it does not
fail Unauthenticated: on the seeded directory it succeeds with status 200 and
returns the first (admin) record, whichever caller is making the request. -/
theorem get_profile_no_auth_counterexample :
    get_profile USERS_DB =
      Except.ok { statusCode := 200, message := "Successful",
                  user := some (.user { id := 1, email := "admin@example.com",
                                        username := "admin", role := "ADMIN",
                                        enabled := true, password := "adminpass" }),
                  userList := none, token := none, refreshToken := none,
                  expirationTime := none, error := none } := rfl

/-- C9 amended: get_profile performs no authentication at all: on every
reachable directory state it succeeds with status 200 and returns the first
record of the directory, the one with id 1, regardless of who the caller is. -/
theorem get_profile_returns_first_record
    (db : List UserRecord) (hr : Reachable db) :
    ∃ u rest, db = u :: rest ∧ u.id = 1 ∧
      get_profile db =
        Except.ok { statusCode := 200, message := "Successful",
                    user := some (.user u), userList := none, token := none,
                    refreshToken := none, expirationTime := none, error := none } := by
  cases hdb : db with
  | nil => exact absurd hdb (reachable_ne_nil hr)
  | cons u rest =>
    exact ⟨u, rest, rfl, reachable_head_id hr u rest hdb,
           by simp [get_profile, create_response_user]⟩

theorem get_profile_returns_first_record_witness :
    ∃ u rest, USERS_DB = u :: rest ∧ u.id = 1 ∧
      get_profile USERS_DB =
        Except.ok { statusCode := 200, message := "Successful",
                    user := some (.user u), userList := none, token := none,
                    refreshToken := none, expirationTime := none, error := none } :=
  get_profile_returns_first_record USERS_DB Reachable.seed

/-- C10: create_response raises AttributeError for every non-empty list datum;
every reachable directory state is non-empty, so get_all_users always raises,
and get_users_by_role raises whenever at least one record has the role: their
success branches never produce a well-formed envelope. -/
theorem create_response_list_raises_on_reachable
    (db : List UserRecord) (hr : Reachable db) :
    (∀ (s : Nat) (m : String) (e : Option String) (u : UserRecord)
        (l : List UserRecord),
        create_response s m (some (.userList (u :: l))) e =
          Except.error (PyError.attributeError "get")) ∧
    get_all_users db = Except.error (PyError.attributeError "get") ∧
    (∀ role : String, db.filter (fun u => u.role == role) ≠ [] →
        get_users_by_role db role = Except.error (PyError.attributeError "get")) := by
  refine ⟨fun s m e u l => create_response_list_cons s m u l e, ?_, ?_⟩
  · cases hdb : db with
    | nil => exact absurd hdb (reachable_ne_nil hr)
    | cons u rest => simp [get_all_users, create_response_list_cons]
  · intro role hne
    cases hfilter : db.filter (fun u => u.role == role) with
    | nil => exact absurd hfilter hne
    | cons u rest =>
      simp [get_users_by_role, hfilter, create_response_list_cons]

theorem create_response_list_raises_witness :
    get_all_users USERS_DB = Except.error (PyError.attributeError "get") ∧
    USERS_DB.filter (fun u => u.role == "ADMIN") ≠ [] ∧
    get_users_by_role USERS_DB "ADMIN" =
      Except.error (PyError.attributeError "get") :=
  ⟨(create_response_list_raises_on_reachable USERS_DB Reachable.seed).2.1,
   by decide,
   (create_response_list_raises_on_reachable USERS_DB Reachable.seed).2.2
     "ADMIN" (by decide)⟩

end DummyBackend
